import Mathlib

/-!
Verification of the MRPT excerpt consisting of the ICP-goodness edge
registration decider (`apps/graphslam-engine/CICPGoodnessERD_impl.h`) and the
occupancy-grid ray simulator (`libs/maps/src/maps/COccupancyGridMap2D_simulate.cpp`).

The decider is embedded as a pure step function on an explicit state record.
External collaborators are passed in as per-call inputs:
  * the pose graph contributes `nodeCount` and, through `dist`, the
    translational distance `nodes[i].distanceTo(nodes[cur])` of each node to
    the newest node; `getAllNodes` enumerates the live node ids `0 … N-1`
    (ids are assigned monotonically and nodes are never deleted);
  * the ICP solver contributes, through `good`, the goodness score reported
    for aligning candidate `i`'s stored scan with the current scan.
Scans themselves are opaque to the decider logic under scrutiny, so the
registries record which node ids hold a scan, and the last-scan slots record
whether a scan pointer is non-null.

The ray simulator's inner march is embedded over an abstract trajectory
`cellAt : Nat → Option Int`, giving for the k-th ray position the log-odds of
the grid cell under it, or `none` when `x2idx`/`y2idx` falls outside the grid
bounds.  This captures lines 144-163 of the source exactly while abstracting
the floating-point world-coordinate stepping that produces the positions.
-/

/-! ### Edge registration decider: data model -/

/-- Configuration parameters of the decider that the update path reads
(`TParams`, loaded in `loadFromConfigFile`). -/
structure TParams where
  ICP_max_distance : ℚ
  ICP_goodness_thresh : ℚ
  LC_min_nodeid_diff : ℤ

/-- Runtime classification of the third argument of `updateDeciderState`
(`IS_CLASS` dispatch, lines 82-130): an observation that is a 2D range scan,
a 3D range scan, an observation of any other class, or no single observation
(sensory-frame format), in which case the frame may or may not contain a 2D
range scan. -/
inductive ObsInput where
  | obs2D : ObsInput
  | obs3D : ObsInput
  | obsOther : ObsInput
  | frame : Bool → ObsInput
deriving DecidableEq, Repr

/-- Inputs one `update` call draws from the external collaborators. -/
structure UpdateInput where
  obs : ObsInput
  nodeCount : ℕ
  dist : ℕ → ℚ
  good : ℕ → ℚ

/-- Decider state (the `m_` members of `CICPGoodnessERD_t` touched by the
update path, plus the external graph's edge list as appended to by
`registerNewEdge`). -/
structure DeciderState where
  last_total_nodes : ℕ
  has_last_laser_scan2D : Bool
  has_last_laser_scan3D : Bool
  is_using_3DScan : Bool
  just_inserted_loop_closure : Bool
  nodes_to_laser_scans2D : List ℕ
  nodes_to_laser_scans3D : List ℕ
  edge_ICP2D : ℕ
  edge_ICP3D : ℕ
  edge_LC : ℕ
  edges : List (ℕ × ℕ)
  checked_for_usuable_dataset : Bool
  consecutive_invalid_format_instances : ℕ
deriving DecidableEq, Repr

/-- `initCICPGoodnessERD_t` (lines 33-59): fresh state after construction. -/
def initCICPGoodnessERD : DeciderState :=
  { last_total_nodes := 2
    has_last_laser_scan2D := false
    has_last_laser_scan3D := false
    is_using_3DScan := false
    just_inserted_loop_closure := false
    nodes_to_laser_scans2D := []
    nodes_to_laser_scans3D := []
    edge_ICP2D := 0
    edge_ICP3D := 0
    edge_LC := 0
    edges := []
    checked_for_usuable_dataset := false
    consecutive_invalid_format_instances := 0 }

/-- `justInsertedLoopClosure` (lines 564-567). -/
def justInsertedLoopClosure (s : DeciderState) : Bool :=
  s.just_inserted_loop_closure

/-! ### getNearbyNodesOf -/

/-- `getNearbyNodesOf` (lines 289-312).  With `distance > 0` it walks the node
ids `0 … nodeCount-2` and keeps those within `distance` of the current node
(`dist i` is `nodes[i].distanceTo(nodes[cur_nodeID])`); otherwise it calls
`m_graph->getAllNodes`, whose snapshot enumeration is the full id range
`0 … nodeCount-1`.  The `std::set` iterates in ascending id order, matching
the order of these lists. -/
def getNearbyNodesOf (nodeCount : ℕ) (dist : ℕ → ℚ) (distance : ℚ) : List ℕ :=
  if distance > 0 then
    (List.range (nodeCount - 1)).filter (fun i => dist i ≤ distance)
  else
    List.range nodeCount

/-! ### checkRegistrationCondition2D / checkRegistrationCondition3D

Both functions (lines 162-273) run the same loop, differing only in which
registry they search and which counter the caller bumps, so they are embedded
once, parameterised by the registry.  The loop body at candidate `c` with the
current node `cur = nodeCount()-1`:
  * skip `c` when its scan is absent from the registry;
  * run ICP and, when `icp_info.goodness > ICP_goodness_thresh`, insert the
    edge `(c, cur)`, bump the ICP counter, and when
    `abs(nodeCount()-1 - c) > LC_min_nodeid_diff` bump the LC counter and
    set the loop-closure latch.  Every call site has `c ≤ cur`, so the
    unsigned difference is `cur - c`. -/

/-- Per-call accumulation of one `checkRegistrationCondition{2D,3D}` run:
edges inserted into the graph, increments applied to the mode ICP counter and
to the LC counter, and whether the loop-closure latch was set. -/
structure RegResult where
  edges : List (ℕ × ℕ)
  icp : ℕ
  lc : ℕ
  latch : Bool
deriving DecidableEq, Repr

/-- One iteration of the candidate loop (lines 181-214 resp. 236-269). -/
def regFoldStep (registry : List ℕ) (cur : ℕ) (good : ℕ → ℚ) (thresh : ℚ)
    (lcMin : ℤ) (acc : RegResult) (c : ℕ) : RegResult :=
  if c ∈ registry then
    if good c > thresh then
      { edges := acc.edges ++ [(c, cur)]
        icp := acc.icp + 1
        lc := if ((cur - c : ℕ) : ℤ) > lcMin then acc.lc + 1 else acc.lc
        latch := if ((cur - c : ℕ) : ℤ) > lcMin then true else acc.latch }
    else acc
  else acc

/-- `checkRegistrationCondition2D`/`3D` over candidate set `cands`: nothing
happens unless the current node `cur` has a scan in the registry; otherwise
the candidate loop runs in ascending id order. -/
def checkRegistrationCondition (registry : List ℕ) (cur : ℕ) (cands : List ℕ)
    (good : ℕ → ℚ) (thresh : ℚ) (lcMin : ℤ) : RegResult :=
  if cur ∈ registry then
    cands.foldl (regFoldStep registry cur good thresh lcMin) ⟨[], 0, 0, false⟩
  else ⟨[], 0, 0, false⟩

/-! ### updateDeciderState -/

/-- Registry append (lines 106-119): with a single observation present and a
new node registered, the id `nodeCount()-1` is bound in the 2D registry when
the last 2D scan pointer is non-null, and in the 3D registry when the last 3D
scan pointer is non-null — both checks run, whatever the observation's class. -/
def bindScansOnObs (registered : Bool) (nodeCount : ℕ) (s : DeciderState) :
    DeciderState :=
  if registered then
    let s1 := if s.has_last_laser_scan2D then
      { s with nodes_to_laser_scans2D := s.nodes_to_laser_scans2D ++ [nodeCount - 1] }
      else s
    if s1.has_last_laser_scan3D then
      { s1 with nodes_to_laser_scans3D := s1.nodes_to_laser_scans3D ++ [nodeCount - 1] }
    else s1
  else s

/-- Scan ingestion and registry append (lines 82-130).  A present 2D scan
refreshes the last-2D slot and clears `m_is_using_3DScan`; a present 3D scan
refreshes the last-3D slot and sets it; any other present observation leaves
both.  In the sensory-frame format the last-2D slot is overwritten with the
frame's first 2D scan (possibly null), and only the 2D registry is appended. -/
def scanIngestion (obs : ObsInput) (registered : Bool) (nodeCount : ℕ)
    (s : DeciderState) : DeciderState :=
  match obs with
  | ObsInput.obs2D =>
      bindScansOnObs registered nodeCount
        { s with has_last_laser_scan2D := true, is_using_3DScan := false }
  | ObsInput.obs3D =>
      bindScansOnObs registered nodeCount
        { s with has_last_laser_scan3D := true, is_using_3DScan := true }
  | ObsInput.obsOther => bindScansOnObs registered nodeCount s
  | ObsInput.frame hasScan =>
      let s1 := { s with has_last_laser_scan2D := hasScan }
      if registered && hasScan then
        { s1 with nodes_to_laser_scans2D := s1.nodes_to_laser_scans2D ++ [nodeCount - 1] }
      else s1

/-- Edge-registration step (lines 133-153): when a new node was detected,
build the candidate set, clear the loop-closure latch, and run the 3D or 2D
registration check according to `m_is_using_3DScan`, folding its result into
the counters, the graph edge list and the latch. -/
def edgeRegistration (p : TParams) (inp : UpdateInput) (registered : Bool)
    (s : DeciderState) : DeciderState :=
  if registered then
    let cands := getNearbyNodesOf inp.nodeCount inp.dist p.ICP_max_distance
    if s.is_using_3DScan then
      let r := checkRegistrationCondition s.nodes_to_laser_scans3D
        (inp.nodeCount - 1) cands inp.good p.ICP_goodness_thresh p.LC_min_nodeid_diff
      { s with just_inserted_loop_closure := r.latch
               edges := s.edges ++ r.edges
               edge_ICP3D := s.edge_ICP3D + r.icp
               edge_LC := s.edge_LC + r.lc }
    else
      let r := checkRegistrationCondition s.nodes_to_laser_scans2D
        (inp.nodeCount - 1) cands inp.good p.ICP_goodness_thresh p.LC_min_nodeid_diff
      { s with just_inserted_loop_closure := r.latch
               edges := s.edges ++ r.edges
               edge_ICP2D := s.edge_ICP2D + r.icp
               edge_LC := s.edge_LC + r.lc }
  else s

/-- `checkIfInvalidDataset` (lines 569-602), reached only while
`m_checked_for_usuable_dataset` is false: a recognised 2D/3D scan or an
absent single observation disarms the check; any other observation class
bumps the invalid-format counter and, past the threshold 20, disarms it. -/
def checkIfInvalidDataset (obs : ObsInput) (s : DeciderState) : DeciderState :=
  match obs with
  | ObsInput.obs2D => { s with checked_for_usuable_dataset := true }
  | ObsInput.obs3D => { s with checked_for_usuable_dataset := true }
  | ObsInput.obsOther =>
      let s1 := { s with consecutive_invalid_format_instances :=
        s.consecutive_invalid_format_instances + 1 }
      if s1.consecutive_invalid_format_instances > 20 then
        { s1 with checked_for_usuable_dataset := true }
      else s1
  | ObsInput.frame _ => { s with checked_for_usuable_dataset := true }

/-- `updateDeciderState` (lines 66-160): detect a prior node registration,
ingest the step's scan, run edge registration, then the dataset sanity
check. -/
def updateDeciderState (p : TParams) (inp : UpdateInput) (s : DeciderState) :
    DeciderState :=
  let registered := decide (s.last_total_nodes < inp.nodeCount)
  let s1 := { s with last_total_nodes :=
    if s.last_total_nodes < inp.nodeCount then inp.nodeCount else s.last_total_nodes }
  let s2 := scanIngestion inp.obs registered inp.nodeCount s1
  let s3 := edgeRegistration p inp registered s2
  if s3.checked_for_usuable_dataset then s3 else checkIfInvalidDataset inp.obs s3

/-- A session: fold `updateDeciderState` over the per-step inputs. -/
def runUpdates (p : TParams) (inputs : List UpdateInput) (s : DeciderState) :
    DeciderState :=
  inputs.foldl (fun st i => updateDeciderState p i st) s

/-! ### simulateScanRay (COccupancyGridMap2D_simulate.cpp, lines 124-184)

The march is embedded over `cellAt : ℕ → Option ℤ`: for the position reached
after `k` steps of the Euler accumulation `(rx,ry) += (Arx,Ary)`,
`cellAt k = some l` gives the log-odds `map[x+y*size_x]` of the cell under it
when both `x2idx(rx)` and `y2idx(ry)` pass the bounds tests, and `none` when
either fails.  The angle perturbation (line 131) and the trigonometric step
vector (lines 134-142) only determine this trajectory, so they are absorbed
into `cellAt`. -/

/-- The while loop of lines 153-163, carrying `ray_len`, the last value
assigned to `hitCellOcc_int` (initially 0) and `firstUnknownCellDist`
(initially `max_ray_len + 1`).  Returns those three together with whether the
loop exited through the bounds tests, which is exactly the final
`(unsigned)x ≥ size_x || (unsigned)y ≥ size_y` condition of line 168.
Recursion is by fuel; the loop guard `ray_len < maxLen` bounds the iteration
count by `maxLen`, so with the initial fuel `maxLen + 1` used by
`simulateScanRay` the fuel-exhaustion branch is unreachable. -/
def rayMarch (cellAt : ℕ → Option ℤ) (thr : ℤ) (maxLen : ℕ) :
    ℕ → ℕ → ℤ → ℕ → ℕ × ℤ × ℕ × Bool
  | 0, ray_len, hit, fu => (ray_len, hit, fu, false)
  | fuel + 1, ray_len, hit, fu =>
      match cellAt ray_len with
      | none => (ray_len, hit, fu, true)
      | some c =>
          if c > thr then
            if ray_len < maxLen then
              rayMarch cellAt thr maxLen fuel (ray_len + 1) c
                (if c.natAbs ≤ 1 then min fu ray_len else fu)
            else (ray_len, c, fu, false)
          else (ray_len, c, fu, false)

/-- `simulateScanRay` result assembly (lines 144-184).  `noiseSample` stands
for the value the shared Gaussian source would return, consumed only when
`noiseStd > 0` and the ray is valid. -/
def simulateScanRay (cellAt : ℕ → Option ℤ) (thr : ℤ) (maxLen : ℕ)
    (resolution : ℚ) (noiseStd : ℚ) (noiseSample : ℚ) : ℚ × Bool :=
  let r := rayMarch cellAt thr maxLen (maxLen + 1) 0 0 (maxLen + 1)
  let ray_len := r.1
  let hit := r.2.1
  let fu := r.2.2.1
  let outOfGrid := r.2.2.2
  if hit.natAbs ≤ 1 ∨ outOfGrid then
    (if fu < ray_len then (fu : ℚ) * resolution else (ray_len : ℚ) * resolution,
     false)
  else
    let range := (ray_len : ℚ) * resolution
    let valid := decide (ray_len < maxLen)
    (if noiseStd > 0 ∧ valid = true then range + noiseStd * noiseSample else range,
     valid)

/-! ### laserScanSimulator and sonarSimulator (lines 40-122)

Per-ray results are abstracted: `raySim i` gives the `(range, valid)` pair
`simulateScanRay` stores for ray index `i` of the laser sweep, and each sonar
transducer carries the list of `(valid, range)` pairs its fanned rays return.
The `ASSERT_` contract checks are modelled with `Except`. -/

/-- The single error class: an `ASSERT_` contract violation. -/
inductive SimError where
  | contract : SimError
deriving DecidableEq, Repr

/-- `laserScanSimulator` (lines 40-82): assert `decimation ≥ 1` and `N ≥ 2`
before any output is produced, then write ray `i` for every
`i = 0, decimation, 2·decimation, … < N`.  Indices skipped by decimation keep
the value-initialised contents of the freshly resized vectors (zero range,
invalid). -/
def laserScanSimulator (N decimation : ℕ) (raySim : ℕ → ℚ × Bool) :
    Except SimError (List (ℚ × Bool)) :=
  if decimation < 1 then Except.error SimError.contract
  else if N < 2 then Except.error SimError.contract
  else Except.ok
    ((List.range N).map (fun i => if i % decimation = 0 then raySim i else (0, false)))

/-- The per-cone minimum fold of `sonarSimulator` (lines 105-118):
`min_detected_obs` starts at 0 and ray `i` overwrites it only when the ray
is valid and either its range is below the current value or `i = 0`. -/
def sonarMinFold (rays : List (Bool × ℚ)) : ℚ :=
  rays.enum.foldl
    (fun acc p =>
      if p.2.1 && (decide (p.2.2 < acc) || decide (p.1 = 0)) then p.2.2 else acc)
    0

/-- `sonarSimulator` (lines 84-122): for each transducer in order, assert
`sensorConeApperture > 0` (the assertion sits inside the per-transducer
loop), then record the fold of its fanned rays as `sensedDistance`. -/
def sonarSimulator (coneAperture : ℚ) :
    List (List (Bool × ℚ)) → Except SimError (List ℚ)
  | [] => Except.ok []
  | rays :: rest =>
      if coneAperture > 0 then
        match sonarSimulator coneAperture rest with
        | Except.ok ds => Except.ok (sonarMinFold rays :: ds)
        | Except.error e => Except.error e
      else Except.error SimError.contract

/-- The registry the registration step searches, per the
`m_is_using_3DScan` dispatch of lines 147-152. -/
def activeRegistry (s : DeciderState) : List ℕ :=
  if s.is_using_3DScan then s.nodes_to_laser_scans3D else s.nodes_to_laser_scans2D

/-- The pose graph's `nodeCount()` as seen after a run of update calls whose
inputs are `inputs`, starting from a graph with `nc0` nodes. -/
def nodeCountTrace (nc0 : ℕ) (inputs : List UpdateInput) : ℕ :=
  inputs.foldl (fun _ i => i.nodeCount) nc0

/-! ### Concrete scenario inputs

Used to evaluate the decider on small runs: `ICP_max_distance = 5` (or with
`LC_min_nodeid_diff = 10`), `ICP_goodness_thresh = 3/4`, all node poses
coincident (`dist = 0`), and an ICP oracle returning goodness 1 (match) or 0
(no match). -/

def scenarioParams : TParams := ⟨5, mkRat 3 4, 0⟩

def scenarioParamsLC10 : TParams := ⟨5, mkRat 3 4, 10⟩

def step2D_n3_poor : UpdateInput := ⟨ObsInput.obs2D, 3, fun _ => 0, fun _ => 0⟩

def step2D_n4_good : UpdateInput := ⟨ObsInput.obs2D, 4, fun _ => 0, fun _ => 1⟩

def step2D_n4_poor : UpdateInput := ⟨ObsInput.obs2D, 4, fun _ => 0, fun _ => 0⟩

def step3D_n3_poor : UpdateInput := ⟨ObsInput.obs3D, 3, fun _ => 0, fun _ => 0⟩

def stepFrame_n0 : UpdateInput := ⟨ObsInput.frame false, 0, fun _ => 0, fun _ => 0⟩

/-! ### Characterisation of the registration loop -/

/-- A candidate passes the registration criterion: its scan is in the
registry and the ICP goodness clears the threshold. -/
def regOk (registry : List ℕ) (good : ℕ → ℚ) (thresh : ℚ) (x : ℕ) : Bool :=
  decide (x ∈ registry) && decide (good x > thresh)

/-- A candidate produces a loop closure: it passes the criterion and its id
gap to the current node clears `LC_min_nodeid_diff`. -/
def regOkLC (registry : List ℕ) (good : ℕ → ℚ) (thresh : ℚ) (cur : ℕ)
    (lcMin : ℤ) (x : ℕ) : Bool :=
  regOk registry good thresh x && decide (((cur - x : ℕ) : ℤ) > lcMin)

lemma regFoldStep_icp (registry : List ℕ) (cur : ℕ) (good : ℕ → ℚ) (thresh : ℚ)
    (lcMin : ℤ) (acc : RegResult) (x : ℕ) :
    (regFoldStep registry cur good thresh lcMin acc x).icp =
      acc.icp + (if regOk registry good thresh x then 1 else 0) := by
  unfold regFoldStep regOk
  split
  · split
    · simp_all
    · simp_all
  · simp_all

lemma regFoldStep_lc (registry : List ℕ) (cur : ℕ) (good : ℕ → ℚ) (thresh : ℚ)
    (lcMin : ℤ) (acc : RegResult) (x : ℕ) :
    (regFoldStep registry cur good thresh lcMin acc x).lc =
      acc.lc + (if regOkLC registry good thresh cur lcMin x then 1 else 0) := by
  unfold regFoldStep regOkLC regOk
  split
  · split
    · split <;> simp_all
    · simp_all
  · simp_all

lemma regFoldStep_edges (registry : List ℕ) (cur : ℕ) (good : ℕ → ℚ) (thresh : ℚ)
    (lcMin : ℤ) (acc : RegResult) (x : ℕ) :
    (regFoldStep registry cur good thresh lcMin acc x).edges =
      acc.edges ++ (if regOk registry good thresh x then [(x, cur)] else []) := by
  unfold regFoldStep regOk
  split
  · split
    · simp_all
    · simp_all
  · simp_all

lemma regFoldStep_latch (registry : List ℕ) (cur : ℕ) (good : ℕ → ℚ) (thresh : ℚ)
    (lcMin : ℤ) (acc : RegResult) (x : ℕ) :
    (regFoldStep registry cur good thresh lcMin acc x).latch =
      (acc.latch || regOkLC registry good thresh cur lcMin x) := by
  unfold regFoldStep regOkLC regOk
  split
  · split
    · split <;> simp_all
    · simp_all
  · simp_all

lemma regFold_icp (registry : List ℕ) (cur : ℕ) (good : ℕ → ℚ) (thresh : ℚ)
    (lcMin : ℤ) (cands : List ℕ) :
    ∀ acc : RegResult,
      (cands.foldl (regFoldStep registry cur good thresh lcMin) acc).icp =
        acc.icp + (cands.filter (regOk registry good thresh)).length := by
  induction cands with
  | nil => intro acc; simp
  | cons x xs ih =>
      intro acc
      rw [List.foldl_cons, ih, regFoldStep_icp, List.filter_cons]
      split
      · simp
        omega
      · simp

lemma regFold_lc (registry : List ℕ) (cur : ℕ) (good : ℕ → ℚ) (thresh : ℚ)
    (lcMin : ℤ) (cands : List ℕ) :
    ∀ acc : RegResult,
      (cands.foldl (regFoldStep registry cur good thresh lcMin) acc).lc =
        acc.lc + (cands.filter (regOkLC registry good thresh cur lcMin)).length := by
  induction cands with
  | nil => intro acc; simp
  | cons x xs ih =>
      intro acc
      rw [List.foldl_cons, ih, regFoldStep_lc, List.filter_cons]
      split
      · simp
        omega
      · simp

lemma regFold_edges (registry : List ℕ) (cur : ℕ) (good : ℕ → ℚ) (thresh : ℚ)
    (lcMin : ℤ) (cands : List ℕ) :
    ∀ acc : RegResult,
      (cands.foldl (regFoldStep registry cur good thresh lcMin) acc).edges =
        acc.edges ++
          ((cands.filter (regOk registry good thresh)).map (fun x => (x, cur))) := by
  induction cands with
  | nil => intro acc; simp
  | cons x xs ih =>
      intro acc
      rw [List.foldl_cons, ih, regFoldStep_edges, List.filter_cons]
      split <;> simp

lemma regFold_latch (registry : List ℕ) (cur : ℕ) (good : ℕ → ℚ) (thresh : ℚ)
    (lcMin : ℤ) (cands : List ℕ) :
    ∀ acc : RegResult,
      (cands.foldl (regFoldStep registry cur good thresh lcMin) acc).latch =
        (acc.latch || cands.any (regOkLC registry good thresh cur lcMin)) := by
  induction cands with
  | nil => intro acc; simp
  | cons x xs ih =>
      intro acc
      rw [List.foldl_cons, ih, regFoldStep_latch, List.any_cons]
      simp [Bool.or_assoc, Bool.or_comm]

lemma checkReg_icp (registry : List ℕ) (cur : ℕ) (cands : List ℕ) (good : ℕ → ℚ)
    (thresh : ℚ) (lcMin : ℤ) (hcur : cur ∈ registry) :
    (checkRegistrationCondition registry cur cands good thresh lcMin).icp =
      (cands.filter (regOk registry good thresh)).length := by
  unfold checkRegistrationCondition
  rw [if_pos hcur, regFold_icp]
  simp

lemma checkReg_lc (registry : List ℕ) (cur : ℕ) (cands : List ℕ) (good : ℕ → ℚ)
    (thresh : ℚ) (lcMin : ℤ) (hcur : cur ∈ registry) :
    (checkRegistrationCondition registry cur cands good thresh lcMin).lc =
      (cands.filter (regOkLC registry good thresh cur lcMin)).length := by
  unfold checkRegistrationCondition
  rw [if_pos hcur, regFold_lc]
  simp

lemma checkReg_edges (registry : List ℕ) (cur : ℕ) (cands : List ℕ) (good : ℕ → ℚ)
    (thresh : ℚ) (lcMin : ℤ) (hcur : cur ∈ registry) :
    (checkRegistrationCondition registry cur cands good thresh lcMin).edges =
      (cands.filter (regOk registry good thresh)).map (fun x => (x, cur)) := by
  unfold checkRegistrationCondition
  rw [if_pos hcur, regFold_edges]
  simp

lemma checkReg_latch (registry : List ℕ) (cur : ℕ) (cands : List ℕ) (good : ℕ → ℚ)
    (thresh : ℚ) (lcMin : ℤ) :
    (checkRegistrationCondition registry cur cands good thresh lcMin).latch =
      (decide (cur ∈ registry) && cands.any (regOkLC registry good thresh cur lcMin)) := by
  unfold checkRegistrationCondition
  split
  · rw [regFold_latch]; simp_all
  · simp_all

lemma filter_regOkLC_length_le (registry : List ℕ) (cur : ℕ) (good : ℕ → ℚ)
    (thresh : ℚ) (lcMin : ℤ) (cands : List ℕ) :
    (cands.filter (regOkLC registry good thresh cur lcMin)).length ≤
      (cands.filter (regOk registry good thresh)).length := by
  induction cands with
  | nil => simp
  | cons x xs ih =>
      rw [List.filter_cons, List.filter_cons]
      by_cases h : regOk registry good thresh x = true
      · by_cases h2 : regOkLC registry good thresh cur lcMin x = true <;>
          simp [h, h2] <;> omega
      · have hf : regOk registry good thresh x = false := by
          revert h; cases regOk registry good thresh x <;> simp
        have h2 : regOkLC registry good thresh cur lcMin x = false := by
          unfold regOkLC; rw [hf]; simp
        simp [hf, h2]; omega

lemma checkReg_lc_le_icp (registry : List ℕ) (cur : ℕ) (cands : List ℕ)
    (good : ℕ → ℚ) (thresh : ℚ) (lcMin : ℤ) :
    (checkRegistrationCondition registry cur cands good thresh lcMin).lc ≤
      (checkRegistrationCondition registry cur cands good thresh lcMin).icp := by
  unfold checkRegistrationCondition
  split
  · rw [regFold_lc, regFold_icp]
    simpa using filter_regOkLC_length_le registry cur good thresh lcMin cands
  · simp

/-! ### Field bookkeeping of the update phases -/

lemma bindScansOnObs_last (r : Bool) (nc : ℕ) (s : DeciderState) :
    (bindScansOnObs r nc s).last_total_nodes = s.last_total_nodes := by
  unfold bindScansOnObs; cases r <;> dsimp only <;> split_ifs <;> rfl

lemma bindScansOnObs_just (r : Bool) (nc : ℕ) (s : DeciderState) :
    (bindScansOnObs r nc s).just_inserted_loop_closure =
      s.just_inserted_loop_closure := by
  unfold bindScansOnObs; cases r <;> dsimp only <;> split_ifs <;> rfl

lemma bindScansOnObs_is3D (r : Bool) (nc : ℕ) (s : DeciderState) :
    (bindScansOnObs r nc s).is_using_3DScan = s.is_using_3DScan := by
  unfold bindScansOnObs; cases r <;> dsimp only <;> split_ifs <;> rfl

lemma bindScansOnObs_counts (r : Bool) (nc : ℕ) (s : DeciderState) :
    (bindScansOnObs r nc s).edge_ICP2D = s.edge_ICP2D ∧
    (bindScansOnObs r nc s).edge_ICP3D = s.edge_ICP3D ∧
    (bindScansOnObs r nc s).edge_LC = s.edge_LC ∧
    (bindScansOnObs r nc s).edges = s.edges := by
  unfold bindScansOnObs
  cases r <;> dsimp only <;> split_ifs <;> exact ⟨rfl, rfl, rfl, rfl⟩

lemma scanIngestion_last (obs : ObsInput) (r : Bool) (nc : ℕ) (s : DeciderState) :
    (scanIngestion obs r nc s).last_total_nodes = s.last_total_nodes := by
  cases obs with
  | obs2D => simp only [scanIngestion, bindScansOnObs_last]
  | obs3D => simp only [scanIngestion, bindScansOnObs_last]
  | obsOther => simp only [scanIngestion, bindScansOnObs_last]
  | frame h => unfold scanIngestion; dsimp only; split_ifs <;> rfl

lemma scanIngestion_just (obs : ObsInput) (r : Bool) (nc : ℕ) (s : DeciderState) :
    (scanIngestion obs r nc s).just_inserted_loop_closure =
      s.just_inserted_loop_closure := by
  cases obs with
  | obs2D => simp only [scanIngestion, bindScansOnObs_just]
  | obs3D => simp only [scanIngestion, bindScansOnObs_just]
  | obsOther => simp only [scanIngestion, bindScansOnObs_just]
  | frame h => unfold scanIngestion; dsimp only; split_ifs <;> rfl

lemma scanIngestion_counts (obs : ObsInput) (r : Bool) (nc : ℕ) (s : DeciderState) :
    (scanIngestion obs r nc s).edge_ICP2D = s.edge_ICP2D ∧
    (scanIngestion obs r nc s).edge_ICP3D = s.edge_ICP3D ∧
    (scanIngestion obs r nc s).edge_LC = s.edge_LC ∧
    (scanIngestion obs r nc s).edges = s.edges := by
  cases obs with
  | obs2D => exact bindScansOnObs_counts r nc _
  | obs3D => exact bindScansOnObs_counts r nc _
  | obsOther => exact bindScansOnObs_counts r nc _
  | frame h => unfold scanIngestion; dsimp only; split_ifs <;> exact ⟨rfl, rfl, rfl, rfl⟩

lemma scanIngestion_is3D (obs : ObsInput) (r : Bool) (nc : ℕ) (s : DeciderState) :
    (scanIngestion obs r nc s).is_using_3DScan =
      (match obs with
       | ObsInput.obs2D => false
       | ObsInput.obs3D => true
       | ObsInput.obsOther => s.is_using_3DScan
       | ObsInput.frame _ => s.is_using_3DScan) := by
  cases obs with
  | obs2D => simp only [scanIngestion, bindScansOnObs_is3D]
  | obs3D => simp only [scanIngestion, bindScansOnObs_is3D]
  | obsOther => simp only [scanIngestion, bindScansOnObs_is3D]
  | frame h => unfold scanIngestion; dsimp only; split_ifs <;> rfl

lemma checkIfInvalidDataset_fields (obs : ObsInput) (s : DeciderState) :
    (checkIfInvalidDataset obs s).last_total_nodes = s.last_total_nodes ∧
    (checkIfInvalidDataset obs s).just_inserted_loop_closure =
      s.just_inserted_loop_closure ∧
    (checkIfInvalidDataset obs s).is_using_3DScan = s.is_using_3DScan ∧
    (checkIfInvalidDataset obs s).edge_ICP2D = s.edge_ICP2D ∧
    (checkIfInvalidDataset obs s).edge_ICP3D = s.edge_ICP3D ∧
    (checkIfInvalidDataset obs s).edge_LC = s.edge_LC ∧
    (checkIfInvalidDataset obs s).edges = s.edges := by
  unfold checkIfInvalidDataset
  cases obs <;> dsimp only <;> try exact ⟨rfl, rfl, rfl, rfl, rfl, rfl, rfl⟩
  case obsOther => split_ifs <;> exact ⟨rfl, rfl, rfl, rfl, rfl, rfl, rfl⟩

lemma edgeRegistration_not (p : TParams) (i : UpdateInput) (s : DeciderState) :
    edgeRegistration p i false s = s := rfl

lemma edgeRegistration_last (p : TParams) (i : UpdateInput) (r : Bool)
    (s : DeciderState) :
    (edgeRegistration p i r s).last_total_nodes = s.last_total_nodes := by
  unfold edgeRegistration
  cases r <;> dsimp only <;> split_ifs <;> rfl

lemma edgeRegistration_is3D (p : TParams) (i : UpdateInput) (r : Bool)
    (s : DeciderState) :
    (edgeRegistration p i r s).is_using_3DScan = s.is_using_3DScan := by
  unfold edgeRegistration
  cases r <;> dsimp only <;> split_ifs <;> rfl

lemma update_last (p : TParams) (i : UpdateInput) (s : DeciderState) :
    (updateDeciderState p i s).last_total_nodes =
      max s.last_total_nodes i.nodeCount := by
  unfold updateDeciderState
  dsimp only
  split
  · split
    · rw [edgeRegistration_last, scanIngestion_last]
      dsimp only
      omega
    · rw [(checkIfInvalidDataset_fields _ _).1, edgeRegistration_last, scanIngestion_last]
      dsimp only
      omega
  · split
    · rw [edgeRegistration_last, scanIngestion_last]
      dsimp only
      omega
    · rw [(checkIfInvalidDataset_fields _ _).1, edgeRegistration_last, scanIngestion_last]
      dsimp only
      omega

lemma edgeRegistration_counts (p : TParams) (i : UpdateInput) (r : Bool)
    (s : DeciderState) (h : s.edge_LC ≤ s.edge_ICP2D + s.edge_ICP3D) :
    (edgeRegistration p i r s).edge_LC ≤
      (edgeRegistration p i r s).edge_ICP2D +
      (edgeRegistration p i r s).edge_ICP3D := by
  unfold edgeRegistration
  by_cases hr : r = true
  · rw [if_pos hr]
    dsimp only
    split
    · dsimp only
      have := checkReg_lc_le_icp s.nodes_to_laser_scans3D (i.nodeCount - 1)
        (getNearbyNodesOf i.nodeCount i.dist p.ICP_max_distance)
        i.good p.ICP_goodness_thresh p.LC_min_nodeid_diff
      omega
    · dsimp only
      have := checkReg_lc_le_icp s.nodes_to_laser_scans2D (i.nodeCount - 1)
        (getNearbyNodesOf i.nodeCount i.dist p.ICP_max_distance)
        i.good p.ICP_goodness_thresh p.LC_min_nodeid_diff
      omega
  · rw [if_neg hr]
    exact h

lemma update_counts_invariant (p : TParams) (i : UpdateInput) (s : DeciderState)
    (h : s.edge_LC ≤ s.edge_ICP2D + s.edge_ICP3D) :
    (updateDeciderState p i s).edge_LC ≤
      (updateDeciderState p i s).edge_ICP2D +
      (updateDeciderState p i s).edge_ICP3D := by
  have key : ∀ (r : Bool) (s1 : DeciderState),
      s1.edge_LC ≤ s1.edge_ICP2D + s1.edge_ICP3D →
      (edgeRegistration p i r (scanIngestion i.obs r i.nodeCount s1)).edge_LC ≤
        (edgeRegistration p i r (scanIngestion i.obs r i.nodeCount s1)).edge_ICP2D +
        (edgeRegistration p i r (scanIngestion i.obs r i.nodeCount s1)).edge_ICP3D := by
    intro r s1 h1
    apply edgeRegistration_counts
    have hc := scanIngestion_counts i.obs r i.nodeCount s1
    rw [hc.2.2.1, hc.1, hc.2.1]
    exact h1
  unfold updateDeciderState
  dsimp only
  split
  · split
    · exact key _ _ h
    · rw [(checkIfInvalidDataset_fields _ _).2.2.2.1,
        (checkIfInvalidDataset_fields _ _).2.2.2.2.1,
        (checkIfInvalidDataset_fields _ _).2.2.2.2.2.1]
      exact key _ _ h
  · split
    · exact key _ _ h
    · rw [(checkIfInvalidDataset_fields _ _).2.2.2.1,
        (checkIfInvalidDataset_fields _ _).2.2.2.2.1,
        (checkIfInvalidDataset_fields _ _).2.2.2.2.2.1]
      exact key _ _ h

lemma runUpdates_nil (p : TParams) (s : DeciderState) : runUpdates p [] s = s := rfl

lemma runUpdates_cons (p : TParams) (i : UpdateInput) (l : List UpdateInput)
    (s : DeciderState) :
    runUpdates p (i :: l) s = runUpdates p l (updateDeciderState p i s) := rfl

lemma chain_take {α : Type} {R : α → α → Prop} :
    ∀ (l : List α) (a : α), List.Chain R a l → ∀ n, List.Chain R a (l.take n) := by
  intro l
  induction l with
  | nil => intro a h n; rw [List.take_nil]; exact h
  | cons x xs ih =>
      intro a h n
      cases n with
      | zero => simp
      | succ m =>
          rw [List.take_succ_cons]
          rw [List.chain_cons] at h ⊢
          exact ⟨h.1, ih x h.2 m⟩

lemma run_last_le (p : TParams) :
    ∀ (l : List UpdateInput) (s : DeciderState) (nc0 : ℕ),
      s.last_total_nodes ≤ nc0 →
      List.Chain (fun a b => a ≤ b) nc0 (l.map (fun i => i.nodeCount)) →
      (runUpdates p l s).last_total_nodes ≤ nodeCountTrace nc0 l := by
  intro l
  induction l with
  | nil => intro s nc0 h _; simpa [runUpdates_nil, nodeCountTrace] using h
  | cons x xs ih =>
      intro s nc0 h hch
      rw [List.map_cons, List.chain_cons] at hch
      rw [runUpdates_cons]
      have h1 : (updateDeciderState p x s).last_total_nodes ≤ x.nodeCount := by
        rw [update_last]
        have := hch.1
        omega
      exact ih _ _ h1 hch.2

lemma edgeRegistration_just_true (p : TParams) (i : UpdateInput) (s : DeciderState) :
    (edgeRegistration p i true s).just_inserted_loop_closure =
      (checkRegistrationCondition (activeRegistry s) (i.nodeCount - 1)
        (getNearbyNodesOf i.nodeCount i.dist p.ICP_max_distance)
        i.good p.ICP_goodness_thresh p.LC_min_nodeid_diff).latch := by
  unfold edgeRegistration activeRegistry
  rw [if_pos rfl]
  dsimp only
  split_ifs with h3
  · rfl
  · rfl

lemma edgeRegistration_icp2d_of_3d (p : TParams) (i : UpdateInput) (r : Bool)
    (s : DeciderState) (h : s.is_using_3DScan = true) :
    (edgeRegistration p i r s).edge_ICP2D = s.edge_ICP2D := by
  unfold edgeRegistration
  by_cases hr : r = true
  · rw [if_pos hr]
    dsimp only
    rw [if_pos h]
  · rw [if_neg hr]

lemma edgeRegistration_icp3d_of_2d (p : TParams) (i : UpdateInput) (r : Bool)
    (s : DeciderState) (h : s.is_using_3DScan = false) :
    (edgeRegistration p i r s).edge_ICP3D = s.edge_ICP3D := by
  unfold edgeRegistration
  by_cases hr : r = true
  · rw [if_pos hr]
    dsimp only
    rw [if_neg (by rw [h]; exact Bool.false_ne_true)]
  · rw [if_neg hr]

lemma update_just_not_registered (p : TParams) (i : UpdateInput) (s : DeciderState)
    (h : ¬ s.last_total_nodes < i.nodeCount) :
    justInsertedLoopClosure (updateDeciderState p i s) = justInsertedLoopClosure s := by
  unfold updateDeciderState justInsertedLoopClosure
  dsimp only
  rw [if_neg h, decide_eq_false h, edgeRegistration_not]
  split
  · exact scanIngestion_just _ _ _ _
  · rw [(checkIfInvalidDataset_fields _ _).2.1]
    exact scanIngestion_just _ _ _ _

lemma update_just_registered (p : TParams) (i : UpdateInput) (s : DeciderState)
    (h : s.last_total_nodes < i.nodeCount) :
    justInsertedLoopClosure (updateDeciderState p i s) =
      (checkRegistrationCondition
        (activeRegistry (scanIngestion i.obs true i.nodeCount
          { s with last_total_nodes := i.nodeCount }))
        (i.nodeCount - 1)
        (getNearbyNodesOf i.nodeCount i.dist p.ICP_max_distance)
        i.good p.ICP_goodness_thresh p.LC_min_nodeid_diff).latch := by
  unfold updateDeciderState justInsertedLoopClosure
  dsimp only
  rw [if_pos h, decide_eq_true h]
  split
  · exact edgeRegistration_just_true p i _
  · rw [(checkIfInvalidDataset_fields _ _).2.1]
    exact edgeRegistration_just_true p i _

lemma update_decomp (p : TParams) (i : UpdateInput) (s : DeciderState) :
    ∃ s2 : DeciderState,
      s2.edge_ICP2D = s.edge_ICP2D ∧
      s2.edge_ICP3D = s.edge_ICP3D ∧
      (updateDeciderState p i s).is_using_3DScan = s2.is_using_3DScan ∧
      (updateDeciderState p i s).edge_ICP2D =
        (edgeRegistration p i (decide (s.last_total_nodes < i.nodeCount)) s2).edge_ICP2D ∧
      (updateDeciderState p i s).edge_ICP3D =
        (edgeRegistration p i (decide (s.last_total_nodes < i.nodeCount)) s2).edge_ICP3D ∧
      s2.is_using_3DScan =
        (match i.obs with
         | ObsInput.obs2D => false
         | ObsInput.obs3D => true
         | ObsInput.obsOther => s.is_using_3DScan
         | ObsInput.frame _ => s.is_using_3DScan) := by
  refine ⟨scanIngestion i.obs (decide (s.last_total_nodes < i.nodeCount)) i.nodeCount
    { s with last_total_nodes :=
        if s.last_total_nodes < i.nodeCount then i.nodeCount else s.last_total_nodes },
    ?_, ?_, ?_, ?_, ?_, ?_⟩
  · exact (scanIngestion_counts _ _ _ _).1
  · exact (scanIngestion_counts _ _ _ _).2.1
  · unfold updateDeciderState
    dsimp only
    split
    · split
      · rw [edgeRegistration_is3D]
      · rw [(checkIfInvalidDataset_fields _ _).2.2.1, edgeRegistration_is3D]
    · split
      · rw [edgeRegistration_is3D]
      · rw [(checkIfInvalidDataset_fields _ _).2.2.1, edgeRegistration_is3D]
  · unfold updateDeciderState
    dsimp only
    split
    · split
      · rfl
      · exact (checkIfInvalidDataset_fields _ _).2.2.2.1
    · split
      · rfl
      · exact (checkIfInvalidDataset_fields _ _).2.2.2.1
  · unfold updateDeciderState
    dsimp only
    split
    · split
      · rfl
      · exact (checkIfInvalidDataset_fields _ _).2.2.2.2.1
    · split
      · rfl
      · exact (checkIfInvalidDataset_fields _ _).2.2.2.2.1
  · rw [scanIngestion_is3D]

lemma rayMarch_free (cellAt : ℕ → Option ℤ) (thr : ℤ) (maxLen : ℕ) :
    ∀ (fuel ray_len : ℕ) (hit : ℤ) (fu : ℕ),
      ray_len + fuel = maxLen + 1 →
      ray_len ≤ maxLen →
      (∀ k, ray_len ≤ k → k ≤ maxLen →
        ∃ c, cellAt k = some c ∧ c > thr ∧ 1 < c.natAbs) →
      ∃ c, cellAt maxLen = some c ∧ 1 < c.natAbs ∧
        rayMarch cellAt thr maxLen fuel ray_len hit fu = (maxLen, c, fu, false) := by
  intro fuel
  induction fuel with
  | zero => intro ray_len hit fu hsum hle h; omega
  | succ f ih =>
      intro ray_len hit fu hsum hle h
      obtain ⟨c, hc, hthr, hab⟩ := h ray_len le_rfl hle
      by_cases hend : ray_len < maxLen
      · have step : rayMarch cellAt thr maxLen (f + 1) ray_len hit fu =
            rayMarch cellAt thr maxLen f (ray_len + 1) c
              (if c.natAbs ≤ 1 then min fu ray_len else fu) := by
          rw [rayMarch, hc]
          dsimp only
          rw [if_pos hthr, if_pos hend]
        rw [step, if_neg (by omega)]
        exact ih (ray_len + 1) c fu (by omega) (by omega)
          (fun k hk1 hk2 => h k (by omega) hk2)
      · have hrl : ray_len = maxLen := by omega
        subst hrl
        refine ⟨c, hc, hab, ?_⟩
        rw [rayMarch, hc]
        dsimp only
        rw [if_pos hthr, if_neg hend]

lemma sonarSimulator_error_iff (ap : ℚ) :
    ∀ ts : List (List (Bool × ℚ)),
      (sonarSimulator ap ts = Except.error SimError.contract ↔
        (¬ ap > 0 ∧ ts ≠ [])) := by
  intro ts
  induction ts with
  | nil => simp [sonarSimulator]
  | cons t rest ih =>
      rw [sonarSimulator]
      by_cases hap : ap > 0
      · rw [if_pos hap]
        constructor
        · intro hcontra
          cases hrec : sonarSimulator ap rest with
          | ok ds => rw [hrec] at hcontra; exact absurd hcontra (by simp)
          | error e =>
              cases e
              exact absurd (ih.mp hrec).1 (by simp [hap])
        · intro hr
          exact absurd hr.1 (by simp [hap])
      · rw [if_neg hap]
        simp [hap]

/-! ### Claim theorems -/

/-- Claim C1, counterexample: in an update with `nodeCount = 3` and
`ICP_max_distance = 0 ≤ 0`, the candidate set built by `getNearbyNodesOf`
contains the new node `2 = nodeCount - 1` itself and therefore is not
`{0 … nodeCount - 2} = {0, 1}`. -/
theorem C1_counterexample :
    (2 : ℕ) ∈ getNearbyNodesOf 3 (fun _ => 0) 0 ∧
      getNearbyNodesOf 3 (fun _ => 0) 0 ≠ [0, 1] := by decide

/-- Claim C1, amended: whenever `ICP_max_distance ≤ 0`, the candidate set
built by `getNearbyNodesOf` is the set of ALL node ids `{0 … nodeCount - 1}`,
including the new node `nodeCount - 1` itself (the `getAllNodes` branch does
not exclude it). -/
theorem C1_amended (nodeCount : ℕ) (dist : ℕ → ℚ) (distance : ℚ)
    (h : distance ≤ 0) :
    getNearbyNodesOf nodeCount dist distance = List.range nodeCount := by
  unfold getNearbyNodesOf
  rw [if_neg (not_lt.mpr h)]

/-- Witness for `C1_amended` at `nodeCount = 3`, `distance = 0`. -/
theorem C1_witness :
    getNearbyNodesOf 3 (fun _ => 0) 0 = List.range 3 :=
  C1_amended 3 (fun _ => 0) 0 (by decide)

/-- Claim C2, counterexample: after a run in which the second update
registers a loop-closure edge, a third update that detects no new node (and
hence registers no edge — the state is completely unchanged) still reports
`justInsertedLoopClosure = true`, because the latch is only reset inside the
new-node branch. -/
theorem C2_counterexample :
    justInsertedLoopClosure (runUpdates scenarioParams
      [step2D_n3_poor, step2D_n4_good, step2D_n4_poor] initCICPGoodnessERD) = true ∧
    updateDeciderState scenarioParams step2D_n4_poor
        (runUpdates scenarioParams [step2D_n3_poor, step2D_n4_good]
          initCICPGoodnessERD) =
      runUpdates scenarioParams [step2D_n3_poor, step2D_n4_good]
        initCICPGoodnessERD := by
  decide

/-- Claim C2, amended: after an update that detects no new node the latch
retains its previous value; after an update that detects a new node,
`justInsertedLoopClosure` is true iff that update registered at least one
edge whose candidate/new-node id gap exceeds `LC_min_nodeid_diff` (that is:
the new node's scan is in the active registry and some candidate with a
registered scan passes the goodness threshold with a large enough id gap). -/
theorem C2_amended (p : TParams) (i : UpdateInput) (s : DeciderState) :
    (¬ s.last_total_nodes < i.nodeCount →
      justInsertedLoopClosure (updateDeciderState p i s) =
        justInsertedLoopClosure s)
    ∧ (s.last_total_nodes < i.nodeCount →
      (justInsertedLoopClosure (updateDeciderState p i s) = true ↔
        (i.nodeCount - 1) ∈ activeRegistry (scanIngestion i.obs true i.nodeCount
            { s with last_total_nodes := i.nodeCount }) ∧
        ∃ c ∈ getNearbyNodesOf i.nodeCount i.dist p.ICP_max_distance,
          c ∈ activeRegistry (scanIngestion i.obs true i.nodeCount
            { s with last_total_nodes := i.nodeCount }) ∧
          i.good c > p.ICP_goodness_thresh ∧
          ((i.nodeCount - 1 - c : ℕ) : ℤ) > p.LC_min_nodeid_diff)) := by
  constructor
  · exact fun h => update_just_not_registered p i s h
  · intro h
    rw [update_just_registered p i s h, checkReg_latch]
    simp only [Bool.and_eq_true, decide_eq_true_eq, List.any_eq_true]
    constructor
    · rintro ⟨hcur, c, hc, hok⟩
      simp only [regOkLC, regOk, Bool.and_eq_true, decide_eq_true_eq] at hok
      exact ⟨hcur, c, hc, hok.1.1, hok.1.2, hok.2⟩
    · rintro ⟨hcur, c, hc, h1, h2, h3⟩
      refine ⟨hcur, c, hc, ?_⟩
      simp only [regOkLC, regOk, Bool.and_eq_true, decide_eq_true_eq]
      exact ⟨⟨h1, h2⟩, h3⟩

/-- Witness for `C2_amended`: the retention clause applied to the concrete
no-new-node third update of the counterexample scenario. -/
theorem C2_witness :
    justInsertedLoopClosure (updateDeciderState scenarioParams step2D_n4_poor
        (runUpdates scenarioParams [step2D_n3_poor, step2D_n4_good]
          initCICPGoodnessERD)) =
      justInsertedLoopClosure (runUpdates scenarioParams
        [step2D_n3_poor, step2D_n4_good] initCICPGoodnessERD) :=
  (C2_amended scenarioParams step2D_n4_poor _).1 (by decide)

/-- Claim C3: evaluation of `sonarSimulator` at the failing input.  A cone
with two fanned rays, the first invalid (range 1) and the second valid with
range 3, records `sensedDistance = 0` — not the minimum valid range 3 —
because the fold only overwrites the running value on ray `i` when
`sim_rang < min_detected_obs` or `i = 0`. -/
theorem C3_code_eval :
    sonarSimulator 1 [[(false, 1), (true, 3)]] = Except.ok [0] := rfl

/-- Claim C4, counterexample: a 3D range scan is observed (second update),
yet the following 2D scan flips the session back to 2D mode and the next
edge registration uses the 2D registry — `edge_ICP2D` is incremented, not
`edge_ICP3D`, and `m_is_using_3DScan` reads false. -/
theorem C4_counterexample :
    (runUpdates scenarioParamsLC10 [step2D_n3_poor, step3D_n3_poor, step2D_n4_good]
      initCICPGoodnessERD).edge_ICP2D = 1 ∧
    (runUpdates scenarioParamsLC10 [step2D_n3_poor, step3D_n3_poor, step2D_n4_good]
      initCICPGoodnessERD).edge_ICP3D = 0 ∧
    (runUpdates scenarioParamsLC10 [step2D_n3_poor, step3D_n3_poor, step2D_n4_good]
      initCICPGoodnessERD).is_using_3DScan = false := by
  decide

/-- Claim C4, amended: the mode is not latched — it follows the most recently
observed scan kind (a 2D observation forces 2D mode, a 3D observation forces
3D mode, anything else leaves the mode unchanged), and each update's edge
registration uses the registry of the resulting mode: in 3D mode the ICP2D
counter cannot change, in 2D mode the ICP3D counter cannot change. -/
theorem C4_amended (p : TParams) (i : UpdateInput) (s : DeciderState) :
    ((updateDeciderState p i s).is_using_3DScan =
      (match i.obs with
       | ObsInput.obs2D => false
       | ObsInput.obs3D => true
       | ObsInput.obsOther => s.is_using_3DScan
       | ObsInput.frame _ => s.is_using_3DScan))
    ∧ ((updateDeciderState p i s).is_using_3DScan = true →
        (updateDeciderState p i s).edge_ICP2D = s.edge_ICP2D)
    ∧ ((updateDeciderState p i s).is_using_3DScan = false →
        (updateDeciderState p i s).edge_ICP3D = s.edge_ICP3D) := by
  obtain ⟨s2, hA, hB, hC, hD, hE, hF⟩ := update_decomp p i s
  refine ⟨by rw [hC, hF], ?_, ?_⟩
  · intro h
    rw [hD, edgeRegistration_icp2d_of_3d]
    · exact hA
    · rw [← hC]; exact h
  · intro h
    rw [hE, edgeRegistration_icp3d_of_2d]
    · exact hB
    · rw [← hC]; exact h

/-- Witness for `C4_amended`: the 2D-mode clause applied to a concrete 2D
update. -/
theorem C4_witness :
    (updateDeciderState scenarioParams step2D_n3_poor
      initCICPGoodnessERD).edge_ICP3D = initCICPGoodnessERD.edge_ICP3D :=
  (C4_amended scenarioParams step2D_n3_poor initCICPGoodnessERD).2.2 (by decide)

/-- Claim C5, counterexample: against a pose graph holding 0 nodes (a
non-decreasing `nodeCount`), `last_total_nodes` is 2 immediately after
construction and still 2 after an update, exceeding `nodeCount() = 0`. -/
theorem C5_counterexample :
    initCICPGoodnessERD.last_total_nodes = 2 ∧
    (updateDeciderState scenarioParams stepFrame_n0
      initCICPGoodnessERD).last_total_nodes = 2 ∧
    ¬ (updateDeciderState scenarioParams stepFrame_n0
        initCICPGoodnessERD).last_total_nodes ≤ stepFrame_n0.nodeCount := by
  decide

/-- Claim C5, amended: provided the graph already holds at least 2 nodes at
construction (the two-node skeleton the pipeline assumes) and `nodeCount()`
is non-decreasing across updates, `last_total_nodes` never exceeds the
current `nodeCount()`: at construction and after every prefix of the update
sequence. -/
theorem C5_amended (p : TParams) (inputs : List UpdateInput) (nc0 : ℕ)
    (h0 : 2 ≤ nc0)
    (hmono : List.Chain (fun a b => a ≤ b) nc0
      (inputs.map (fun i => i.nodeCount))) :
    initCICPGoodnessERD.last_total_nodes ≤ nc0 ∧
    ∀ n : ℕ,
      (runUpdates p (inputs.take n) initCICPGoodnessERD).last_total_nodes ≤
        nodeCountTrace nc0 (inputs.take n) := by
  constructor
  · exact h0
  · intro n
    apply run_last_le
    · exact h0
    · rw [List.map_take]
      exact chain_take _ _ hmono n

/-- Witness for `C5_amended` on a one-step run with `nodeCount` 2 → 3. -/
theorem C5_witness :
    (runUpdates scenarioParams ([step2D_n3_poor].take 1)
      initCICPGoodnessERD).last_total_nodes ≤
      nodeCountTrace 2 ([step2D_n3_poor].take 1) :=
  (C5_amended scenarioParams [step2D_n3_poor] 2 (by decide)
    (List.Chain.cons (by decide) List.Chain.nil)).2 1

/-- Claim C6: during a registration step in which the current node's scan is
present in the active registry, a candidate with a registered scan produces
the edge `(candidate, new_node)` iff the reported ICP goodness is strictly
above `ICP_goodness_thresh`; the ICP counter increment of the call equals
the number of candidates passing that criterion, so below-or-equal goodness
contributes neither an edge nor a counter increment. -/
theorem C6_registration_iff (registry : List ℕ) (cur : ℕ) (cands : List ℕ)
    (good : ℕ → ℚ) (thresh : ℚ) (lcMin : ℤ) (c : ℕ)
    (hcur : cur ∈ registry) (hc : c ∈ cands) (hcreg : c ∈ registry) :
    (((c, cur) ∈
        (checkRegistrationCondition registry cur cands good thresh lcMin).edges)
      ↔ good c > thresh)
    ∧ (checkRegistrationCondition registry cur cands good thresh lcMin).icp =
        (cands.filter (regOk registry good thresh)).length := by
  refine ⟨?_, checkReg_icp _ _ _ _ _ _ hcur⟩
  rw [checkReg_edges _ _ _ _ _ _ hcur]
  constructor
  · intro hmem
    obtain ⟨x, hx, hxeq⟩ := List.mem_map.mp hmem
    obtain ⟨hx1, hx2⟩ := List.mem_filter.mp hx
    have hxc : x = c := ((Prod.mk.injEq _ _ _ _).mp hxeq).1
    subst hxc
    simp only [regOk, Bool.and_eq_true, decide_eq_true_eq] at hx2
    exact hx2.2
  · intro hg
    apply List.mem_map.mpr
    refine ⟨c, List.mem_filter.mpr ⟨hc, ?_⟩, rfl⟩
    simp only [regOk, Bool.and_eq_true, decide_eq_true_eq]
    exact ⟨hcreg, hg⟩

/-- Witness for `C6_registration_iff`: registry `{0, 2}`, current node 2,
candidate 0 with goodness `1 > 3/4` yields the edge `(0, 2)`. -/
theorem C6_witness :
    (0, 2) ∈ (checkRegistrationCondition [0, 2] 2 [0] (fun _ => 1)
      (mkRat 3 4) 0).edges :=
  ((C6_registration_iff [0, 2] 2 [0] (fun _ => 1) (mkRat 3 4) 0 0
    (by decide) (by decide) (by decide)).1).mpr (by decide)

/-- Claim C7: from a freshly constructed decider, after any sequence of
updates the loop-closure counter never exceeds the sum of the two ICP
counters, since "LC" is only incremented alongside an "ICP2D" or "ICP3D"
increment for the same registered edge. -/
theorem C7_lc_bound (p : TParams) (inputs : List UpdateInput) :
    (runUpdates p inputs initCICPGoodnessERD).edge_LC ≤
      (runUpdates p inputs initCICPGoodnessERD).edge_ICP2D +
      (runUpdates p inputs initCICPGoodnessERD).edge_ICP3D := by
  have general : ∀ (l : List UpdateInput) (s : DeciderState),
      s.edge_LC ≤ s.edge_ICP2D + s.edge_ICP3D →
      (runUpdates p l s).edge_LC ≤
        (runUpdates p l s).edge_ICP2D + (runUpdates p l s).edge_ICP3D := by
    intro l
    induction l with
    | nil => intro s h; exact h
    | cons x xs ih =>
        intro s h
        rw [runUpdates_cons]
        exact ih _ (update_counts_invariant p x s h)
  exact general inputs initCICPGoodnessERD (by decide)

/-- Claim C8: with zero range and angle noise, on a trajectory whose every
checked cell (positions `0 … max_ray_len`) is inside the grid, strictly
freer than the threshold, and not unknown, `simulateScanRay` reports
`range = max_ray_len · resolution` with validity false. -/
theorem C8_free_grid (cellAt : ℕ → Option ℤ) (thr : ℤ) (maxLen : ℕ)
    (resolution : ℚ)
    (h : ∀ k, k ≤ maxLen → ∃ c, cellAt k = some c ∧ c > thr ∧ 1 < c.natAbs) :
    simulateScanRay cellAt thr maxLen resolution 0 0 =
      ((maxLen : ℚ) * resolution, false) := by
  obtain ⟨c, hcell, hab, hm⟩ :=
    rayMarch_free cellAt thr maxLen (maxLen + 1) 0 0 (maxLen + 1)
      (by omega) (by omega) (fun k hk0 hk => h k hk)
  unfold simulateScanRay
  rw [hm]
  dsimp only
  rw [if_neg (by simp; omega)]
  simp [Nat.lt_irrefl]

/-- Witness for `C8_free_grid`: every cell free at log-odds 5, threshold 0,
`max_ray_len = 3`, resolution 1. -/
theorem C8_witness :
    simulateScanRay (fun _ => some 5) 0 3 1 0 0 = (((3 : ℕ) : ℚ) * 1, false) :=
  C8_free_grid (fun _ => some 5) 0 3 1 (fun k hk => ⟨5, rfl, by decide, by decide⟩)

/-- Claim C9, counterexample: an observation with non-positive cone aperture
but NO transducers completes without any contract violation, because the
aperture assertion sits inside the per-transducer loop. -/
theorem C9_counterexample :
    ¬ ((0 : ℚ) > 0) ∧ sonarSimulator 0 [] = Except.ok [] := ⟨by decide, rfl⟩

/-- Claim C9, amended: `laserScanSimulator` fails with a contract violation
exactly when `decimation < 1` or `N < 2` (asserted before any output is
written), and `sonarSimulator` fails with a contract violation exactly when
its cone aperture is not strictly positive AND the observation holds at
least one transducer; all other argument values pass the checks. -/
theorem C9_amended (N d : ℕ) (raySim : ℕ → ℚ × Bool) (ap : ℚ)
    (ts : List (List (Bool × ℚ))) :
    ((laserScanSimulator N d raySim = Except.error SimError.contract) ↔
      (d < 1 ∨ N < 2))
    ∧ ((sonarSimulator ap ts = Except.error SimError.contract) ↔
      (¬ ap > 0 ∧ ts ≠ [])) := by
  constructor
  · unfold laserScanSimulator
    by_cases h1 : d < 1
    · rw [if_pos h1]
      simp [h1]
    · rw [if_neg h1]
      by_cases h2 : N < 2
      · rw [if_pos h2]
        simp [h1, h2]
      · rw [if_neg h2]
        simp [h1, h2]
  · exact sonarSimulator_error_iff ap ts

/-- Witness for `C9_amended`: `N = 1 < 2` trips the laser contract check. -/
theorem C9_witness :
    laserScanSimulator 1 3 (fun _ => (0, false)) = Except.error SimError.contract :=
  (C9_amended 1 3 (fun _ => (0, false)) 1 []).1.mpr (Or.inr (by decide))

/-- Claim C10: when the start position already fails the `x2idx`/`y2idx`
bounds test, the march performs zero steps (`ray_len = 0`) and
`simulateScanRay` reports range 0 with validity false. -/
theorem C10_out_of_grid (cellAt : ℕ → Option ℤ) (thr : ℤ) (maxLen : ℕ)
    (resolution noiseStd noiseSample : ℚ) (h : cellAt 0 = none) :
    simulateScanRay cellAt thr maxLen resolution noiseStd noiseSample =
      (0, false) ∧
    (rayMarch cellAt thr maxLen (maxLen + 1) 0 0 (maxLen + 1)).1 = 0 := by
  have hm : rayMarch cellAt thr maxLen (maxLen + 1) 0 0 (maxLen + 1) =
      (0, 0, maxLen + 1, true) := by
    rw [rayMarch, h]
  constructor
  · unfold simulateScanRay
    rw [hm]
    dsimp only
    rw [if_pos (Or.inl (by decide))]
    rw [if_neg (by omega)]
    norm_num
  · rw [hm]

/-- Witness for `C10_out_of_grid` with an everywhere-out-of-grid start. -/
theorem C10_witness :
    simulateScanRay (fun _ => none) 0 7 (mkRat 1 10) 0 0 = (0, false) :=
  (C10_out_of_grid (fun _ => none) 0 7 (mkRat 1 10) 0 0 rfl).1
